import Mathlib

/-!
# Verification of the grid-trading controller (`ceshi.py`)

Shallow embedding of the single-symbol futures grid-trading bot.  The
Python program keeps two dictionaries of open orders (buys and sells),
places a ladder of limit buys below a base price, converts every fully
filled buy into a sell at a fixed markup, replenishes buys from filled
sells, and restarts the cycle once every sell has been reported FILLED.

Modelling conventions:
* Python float arithmetic is embedded as exact rational arithmetic (`ℚ`).
* The exchange (HTTP gateway) is an oracle `Env`: order-status queries,
  order-creation success/failure, symbol metadata and the last trade
  price are all read from it.  Each call to `create_order` consumes one
  index of `Env.createOk`, counted by `GState.callIdx`.
* The two Python dictionaries preserve insertion order, so they are
  embedded as lists of `Order`; `list(dict.items())` snapshots become
  `List.foldl` over the current list value, and `del d[k]` becomes a
  filter on the key.
* `GState.log` is a ghost field recording every submission attempt with
  its *raw* (pre-rounding) price and quantity; the Python code has no
  such field, it only prints.  No branch of the embedded code reads it.
-/

namespace GridCeshi

inductive Side
  | buy
  | sell
  deriving DecidableEq, Repr

inductive OrderStatus
  | NEW
  | PARTIALLY_FILLED
  | FILLED
  | CANCELED
  | EXPIRED
  deriving DecidableEq, Repr

/-- A tracked order, as stored in `buy_orders` / `sell_orders`:
the exchange id, the side, and the price/quantity the exchange echoed
back (i.e. after tick-size and precision normalisation). -/
structure Order where
  id : ℕ
  side : Side
  price : ℚ
  origQty : ℚ
  deriving DecidableEq, Repr

/-- Ghost record of one `create_order` attempt: side, raw requested
price and quantity (before any rounding), and whether it succeeded. -/
structure Submission where
  side : Side
  price : ℚ
  qty : ℚ
  ok : Bool
  deriving DecidableEq, Repr

/-- `TraderConfig` from the source (network credentials and the symbol
string play no role in the order logic and are omitted). -/
structure TraderConfig where
  leverage : ℚ
  total_margin : ℚ
  drop_to_buy : ℚ
  rise_to_sell : ℚ
  max_buy_times : ℕ
  deriving DecidableEq, Repr

/-- Result of `get_symbol_info`, as used by `create_order`: the price
and quantity normalisation the symbol metadata induces.  In the Python
source `normPrice p` is `round(math.floor(p / tickSize) * tickSize,
pricePrecision)` and `normQty q` is `round(q, quantityPrecision)`; the
spec treats symbol metadata and tick-size normalisation as an external
collaborator of the core (§1, §4.1), so the two maps are carried as
oracle data here. -/
structure SymbolInfo where
  normPrice : ℚ → ℚ
  normQty : ℚ → ℚ

/-- The exchange oracle for one tick (or one run): `symbolInfo` is the
`get_symbol_info` answer, `createOk k` decides whether the `k`-th
`create_order` call is acknowledged with an order id, `status i` is the
`check_order_status` answer for order `i` (`none` = request failed,
otherwise the status and the executed quantity), and `lastPrice` is the
`get_market_price` answer. -/
structure Env where
  symbolInfo : Option SymbolInfo
  createOk : ℕ → Bool
  status : ℕ → Option (OrderStatus × ℚ)
  lastPrice : Option ℚ

/-- Combined mutable state of `OrderManager` and `GridTrader`.
`nextId` generates fresh exchange order ids, `callIdx` counts
`create_order` calls (indexing `Env.createOk`), `log` is ghost. -/
structure GState where
  buy_orders : List Order
  sell_orders : List Order
  buy_order_filled : Bool
  sell_order_executed : Bool
  base_price : Option ℚ
  new_cycle_flag : Bool
  nextId : ℕ
  callIdx : ℕ
  log : List Submission
  deriving DecidableEq, Repr

/-- Initial state of a fresh `GridTrader`/`OrderManager` pair. -/
def initState : GState where
  buy_orders := []
  sell_orders := []
  buy_order_filled := false
  sell_order_executed := false
  base_price := none
  new_cycle_flag := true
  nextId := 0
  callIdx := 0
  log := []

/-- `BinanceAPI.create_order side price amount`.  Fetches symbol info
(failure → `None` before any exchange request), normalises price and
quantity, submits, and returns the created order on success.  Every
call advances `callIdx`; the attempt is recorded in the ghost log. -/
def create_order (env : Env) (side : Side) (price qty : ℚ) (st : GState) :
    Option Order × GState :=
  match env.symbolInfo with
  | none =>
      (none, { st with callIdx := st.callIdx + 1
                       log := st.log ++ [⟨side, price, qty, false⟩] })
  | some si =>
      if env.createOk st.callIdx then
        (some ⟨st.nextId, side, si.normPrice price, si.normQty qty⟩,
         { st with nextId := st.nextId + 1
                   callIdx := st.callIdx + 1
                   log := st.log ++ [⟨side, price, qty, true⟩] })
      else
        (none, { st with callIdx := st.callIdx + 1
                         log := st.log ++ [⟨side, price, qty, false⟩] })

/-- `BinanceAPI.check_order_status`: the reported status (`none` when
the request fails, as in the Python `(None, 0, 0)` return) and the
executed quantity.  The third Python component (remaining quantity) is
never read by any caller and is omitted. -/
def check_order_status (env : Env) (oid : ℕ) : Option OrderStatus × ℚ :=
  match env.status oid with
  | some (s, q) => (some s, q)
  | none => (none, 0)

/-- The status component of `check_order_status`. -/
def statusOf (env : Env) (oid : ℕ) : Option OrderStatus :=
  (check_order_status env oid).1

/-- The executed-quantity component of `check_order_status`. -/
def filledOf (env : Env) (oid : ℕ) : ℚ :=
  (check_order_status env oid).2

/-- The `for price in buy_prices` loop of `OrderManager.place_buy_orders`:
submit each rung; on the first failure return at once (remaining rungs
are not attempted). -/
def place_buy_orders_go (env : Env) (qty : ℚ) :
    List ℚ → GState → GState
  | [], st => st
  | p :: rest, st =>
      match create_order env Side.buy p qty st with
      | (none, st') => st'
      | (some o, st') =>
          place_buy_orders_go env qty rest
            { st' with buy_orders := st'.buy_orders ++ [o] }

/-- `OrderManager.place_buy_orders base_price`. -/
def place_buy_orders (env : Env) (cfg : TraderConfig) (base_price : ℚ)
    (st : GState) : GState :=
  let single_margin := cfg.total_margin / (cfg.max_buy_times : ℚ)
  let single_amount := single_margin * cfg.leverage / base_price
  let buy_prices := (List.range' 1 cfg.max_buy_times).map
    (fun (i : ℕ) => base_price * (1 - cfg.drop_to_buy * (i : ℚ)))
  place_buy_orders_go env single_amount buy_prices st

/-- The `while retry_count > 0 and sell_order is None` loop of
`check_and_place_sell_orders`, with the retry counter as fuel.  On
success the sell is recorded and `sell_order_executed` is set. -/
def sell_retry (env : Env) (price qty : ℚ) :
    ℕ → GState → Option Order × GState
  | 0, st => (none, st)
  | n + 1, st =>
      match create_order env Side.sell price qty st with
      | (none, st') => sell_retry env price qty n st'
      | (some o, st') =>
          (some o,
           { st' with sell_orders := st'.sell_orders ++ [o]
                      sell_order_executed := true })

/-- Body of the `for order_id, order in list(self.buy_orders.items())`
loop of `OrderManager.check_and_place_sell_orders`, for one snapshot
entry `o`. -/
def convert_buy (env : Env) (cfg : TraderConfig) (st : GState)
    (o : Order) : GState :=
  let status := statusOf env o.id
  let filled_amount := filledOf env o.id
  if status = some OrderStatus.FILLED ∨
      status = some OrderStatus.PARTIALLY_FILLED then
    let st := { st with buy_order_filled := true }
    if o.origQty = filled_amount then
      let sell_price := o.price * (1 + cfg.rise_to_sell)
      match sell_retry env sell_price filled_amount 3 st with
      | (some _, st') =>
          { st' with
            buy_orders := st'.buy_orders.filter (fun b => b.id ≠ o.id) }
      | (none, st') => st'
    else st
  else st

/-- `OrderManager.check_and_place_sell_orders`: fold the conversion body
over a snapshot of the tracked buy orders. -/
def check_and_place_sell_orders (env : Env) (cfg : TraderConfig)
    (st : GState) : GState :=
  st.buy_orders.foldl (convert_buy env cfg) st

/-- `OrderManager.cancel_all_orders`: cancel every tracked buy at the
exchange and drop it from tracking (the Python `del` runs whether or not
the exchange acknowledged the cancellation). -/
def cancel_all_orders (st : GState) : GState :=
  { st with buy_orders := [] }

/-- `GridTrader.start_trade_cycle`: clear the buy-filled flag, cancel
all tracked buys, refetch the base price; if the price query failed,
return at once, otherwise place the buy ladder. -/
def start_trade_cycle (env : Env) (cfg : TraderConfig) (st : GState) :
    GState :=
  let st := { st with buy_order_filled := false }
  let st := cancel_all_orders st
  let st := { st with base_price := env.lastPrice }
  match env.lastPrice with
  | none => st
  | some bp => place_buy_orders env cfg bp st

/-- The `all_sell_orders_filled` condition computed by the first loop of
`GridTrader.check_and_replace_buy_orders`. -/
def allSellsFilled (env : Env) (sells : List Order) : Prop :=
  ∀ o ∈ sells, statusOf env o.id = some OrderStatus.FILLED

instance (env : Env) (sells : List Order) :
    Decidable (allSellsFilled env sells) :=
  List.decidableBAll _ sells

/-- Body of the second (replenishment) loop of
`GridTrader.check_and_replace_buy_orders`, for one snapshot entry `o`. -/
def replace_buy (env : Env) (cfg : TraderConfig) (st : GState)
    (o : Order) : GState :=
  if statusOf env o.id = some OrderStatus.FILLED then
    let new_buy_price := o.price * (1 - cfg.drop_to_buy)
    let buy_amount := o.origQty
    match create_order env Side.buy new_buy_price buy_amount st with
    | (some b, st') =>
        { st' with
          buy_orders := st'.buy_orders ++ [b]
          sell_orders := st'.sell_orders.filter (fun s => s.id ≠ o.id) }
    | (none, st') => st'
  else st

/-- `GridTrader.check_and_replace_buy_orders`.  The first loop only
computes `all_sell_orders_filled` and leaves the loop variable
`order_id` bound to the *last* iterated sell; the completion branch then
deletes exactly that one entry, sets the new-cycle flag and returns.
Otherwise the second loop replenishes a buy for each FILLED sell. -/
def check_and_replace_buy_orders (env : Env) (cfg : TraderConfig)
    (st : GState) : GState :=
  let sells := st.sell_orders
  if allSellsFilled env sells ∧ 0 < sells.length then
    match sells.getLast? with
    | some lastO =>
        { st with
          sell_orders := st.sell_orders.filter (fun s => s.id ≠ lastO.id)
          new_cycle_flag := true }
    | none => st
  else
    sells.foldl (replace_buy env cfg) st

/-- The `partial_filled` check of `GridTrader.check_price_rise`. -/
def anyBuyPartiallyFilled (env : Env) (buys : List Order) : Prop :=
  ∃ o ∈ buys, statusOf env o.id = some OrderStatus.PARTIALLY_FILLED

instance (env : Env) (buys : List Order) :
    Decidable (anyBuyPartiallyFilled env buys) :=
  List.decidableBEx _ buys

/-- `GridTrader.check_price_rise`: only when no buy has filled this
cycle and none is partially filled, fetch the market price and set the
new-cycle flag when it strictly exceeds `base_price * (1 + rise_to_sell)`. -/
def check_price_rise (env : Env) (cfg : TraderConfig) (st : GState) :
    GState :=
  if st.buy_order_filled = false ∧
      ¬ anyBuyPartiallyFilled env st.buy_orders then
    match env.lastPrice, st.base_price with
    | some current_price, some bp =>
        if bp * (1 + cfg.rise_to_sell) < current_price then
          { st with new_cycle_flag := true }
        else st
    | _, _ => st
  else st

/-- One iteration of the `while True` loop of `GridTrader.trade`:
cycle start (when the flag is set or the base price is unset, with the
flag cleared immediately after), then fill detection / conversion, then
replenishment, then the price-rise check. -/
def trade_tick (env : Env) (cfg : TraderConfig) (st : GState) : GState :=
  let st :=
    if st.new_cycle_flag = true ∨ st.base_price = none then
      { start_trade_cycle env cfg st with new_cycle_flag := false }
    else st
  let st := check_and_place_sell_orders env cfg st
  let st := check_and_replace_buy_orders env cfg st
  check_price_rise env cfg st

/-- Run the trade loop for a list of per-tick exchange oracles. -/
def run_ticks (cfg : TraderConfig) (envs : List Env) (st : GState) :
    GState :=
  envs.foldl (fun s e => trade_tick e cfg s) st

/-! ## Specification-side observation functions -/

/-- The projection of an order that ignores its exchange-assigned id. -/
def orderKey (o : Order) : Side × ℚ × ℚ :=
  (o.side, o.price, o.origQty)

/-- The condition under which `check_and_place_sell_orders` converts a
tracked buy into a sell: the reported status is FILLED or
PARTIALLY_FILLED and the reported executed quantity equals the order's
full requested quantity. -/
def convGuard (env : Env) (o : Order) : Prop :=
  (statusOf env o.id = some OrderStatus.FILLED ∨
    statusOf env o.id = some OrderStatus.PARTIALLY_FILLED) ∧
  o.origQty = filledOf env o.id

instance (env : Env) (o : Order) : Decidable (convGuard env o) := by
  unfold convGuard; infer_instance

/-- The sell submission that the conversion pass issues for one tracked
buy (empty when the buy is not eligible). -/
def sellAttemptOf (cfg : TraderConfig) (env : Env) (o : Order) :
    List Submission :=
  if convGuard env o then
    [⟨Side.sell, o.price * (1 + cfg.rise_to_sell), filledOf env o.id, true⟩]
  else []

/-- The sell order (id ignored) that the conversion pass records for one
tracked buy (empty when the buy is not eligible). -/
def sellRecordOf (cfg : TraderConfig) (env : Env) (si : SymbolInfo)
    (o : Order) : List (Side × ℚ × ℚ) :=
  if convGuard env o then
    [(Side.sell, si.normPrice (o.price * (1 + cfg.rise_to_sell)),
      si.normQty (filledOf env o.id))]
  else []

/-- The replacement-buy submission that the replenishment pass issues
for one tracked sell (empty when the sell is not FILLED). -/
def replAttemptOf (cfg : TraderConfig) (env : Env) (o : Order) :
    List Submission :=
  if statusOf env o.id = some OrderStatus.FILLED then
    [⟨Side.buy, o.price * (1 - cfg.drop_to_buy), o.origQty, true⟩]
  else []

/-- The replacement buy order (id ignored) that the replenishment pass
records for one tracked sell (empty when the sell is not FILLED). -/
def replRecordOf (cfg : TraderConfig) (env : Env) (si : SymbolInfo)
    (o : Order) : List (Side × ℚ × ℚ) :=
  if statusOf env o.id = some OrderStatus.FILLED then
    [(Side.buy, si.normPrice (o.price * (1 - cfg.drop_to_buy)),
      si.normQty o.origQty)]
  else []

/-- Ids of the tracked sells of `todo` that report FILLED. -/
def filledIds (env : Env) (todo : List Order) : List ℕ :=
  (todo.filter (fun o => statusOf env o.id = some OrderStatus.FILLED)).map
    Order.id

/-! ## Basic lemmas about the exchange-gateway embedding -/

theorem create_order_ok (env : Env) (si : SymbolInfo)
    (side : Side) (price qty : ℚ) (st : GState)
    (hsi : env.symbolInfo = some si) (hk : env.createOk st.callIdx = true) :
    create_order env side price qty st =
      (some ⟨st.nextId, side, si.normPrice price, si.normQty qty⟩,
       { st with nextId := st.nextId + 1
                 callIdx := st.callIdx + 1
                 log := st.log ++ [⟨side, price, qty, true⟩] }) := by
  simp [create_order, hsi, hk]

theorem create_order_fail (env : Env)
    (side : Side) (price qty : ℚ) (st : GState)
    (h : env.symbolInfo = none ∨ env.createOk st.callIdx = false) :
    create_order env side price qty st =
      (none,
       { st with callIdx := st.callIdx + 1
                 log := st.log ++ [⟨side, price, qty, false⟩] }) := by
  rcases h with h | h
  · simp [create_order, h]
  · cases hsi : env.symbolInfo <;> simp [create_order, hsi, h]

/-- Fields of the state that a `create_order` call never touches. -/
theorem create_order_frame (env : Env) (side : Side) (price qty : ℚ)
    (st : GState) :
    (create_order env side price qty st).2.buy_orders = st.buy_orders ∧
    (create_order env side price qty st).2.sell_orders = st.sell_orders ∧
    (create_order env side price qty st).2.buy_order_filled = st.buy_order_filled ∧
    (create_order env side price qty st).2.base_price = st.base_price ∧
    (create_order env side price qty st).2.new_cycle_flag = st.new_cycle_flag := by
  cases hsi : env.symbolInfo with
  | none => simp [create_order, hsi]
  | some si =>
      cases hk : env.createOk st.callIdx <;> simp [create_order, hsi, hk]

/-- Fields of the state that the sell-retry loop never touches. -/
theorem sell_retry_frame (env : Env) (price qty : ℚ) :
    ∀ (n : ℕ) (st : GState),
    (sell_retry env price qty n st).2.buy_orders = st.buy_orders ∧
    (sell_retry env price qty n st).2.base_price = st.base_price ∧
    (sell_retry env price qty n st).2.buy_order_filled = st.buy_order_filled ∧
    (sell_retry env price qty n st).2.new_cycle_flag = st.new_cycle_flag
  | 0, st => by simp [sell_retry]
  | n + 1, st => by
      rcases hc : create_order env Side.sell price qty st with ⟨res, st'⟩
      have hf := create_order_frame env Side.sell price qty st
      rw [hc] at hf
      cases res with
      | none =>
          have ih := sell_retry_frame env price qty n st'
          simp only [sell_retry, hc]
          exact ⟨hf.1 ▸ ih.1, hf.2.2.2.1 ▸ ih.2.1,
            hf.2.2.1 ▸ ih.2.2.1, hf.2.2.2.2 ▸ ih.2.2.2⟩
      | some o =>
          simp only [sell_retry, hc]
          exact ⟨hf.1, hf.2.2.2.1, hf.2.2.1, hf.2.2.2.2⟩

/-- Fields of the state that the per-buy conversion body never touches. -/
theorem convert_buy_frame (env : Env) (cfg : TraderConfig) (st : GState)
    (o : Order) :
    (convert_buy env cfg st o).base_price = st.base_price ∧
    (convert_buy env cfg st o).new_cycle_flag = st.new_cycle_flag := by
  by_cases h1 : statusOf env o.id = some OrderStatus.FILLED ∨
      statusOf env o.id = some OrderStatus.PARTIALLY_FILLED
  · by_cases h2 : o.origQty = filledOf env o.id
    · rcases hr : sell_retry env (o.price * (1 + cfg.rise_to_sell))
        (filledOf env o.id) 3 { st with buy_order_filled := true } with ⟨res, st'⟩
      have hf := sell_retry_frame env (o.price * (1 + cfg.rise_to_sell))
        (filledOf env o.id) 3 { st with buy_order_filled := true }
      rw [hr] at hf
      cases res <;> simp_all [convert_buy]
    · simp [convert_buy, h1, h2]
  · simp [convert_buy, h1]

/-- Fields of the state that the conversion pass never touches. -/
theorem check_and_place_sell_orders_frame (env : Env) (cfg : TraderConfig) :
    ∀ (todo : List Order) (st : GState),
    ((todo.foldl (convert_buy env cfg) st).base_price = st.base_price ∧
     (todo.foldl (convert_buy env cfg) st).new_cycle_flag = st.new_cycle_flag)
  | [], st => by simp
  | o :: rest, st => by
      have h1 := convert_buy_frame env cfg st o
      have ih := check_and_place_sell_orders_frame env cfg rest
        (convert_buy env cfg st o)
      simp only [List.foldl_cons]
      exact ⟨h1.1 ▸ ih.1, h1.2 ▸ ih.2⟩

/-- Fields of the state that the per-sell replenishment body never
touches. -/
theorem replace_buy_frame (env : Env) (cfg : TraderConfig) (st : GState)
    (o : Order) :
    (replace_buy env cfg st o).base_price = st.base_price ∧
    (replace_buy env cfg st o).new_cycle_flag = st.new_cycle_flag ∧
    (replace_buy env cfg st o).buy_order_filled = st.buy_order_filled := by
  unfold replace_buy
  split
  · rcases hc : create_order env Side.buy (o.price * (1 - cfg.drop_to_buy))
      o.origQty st with ⟨res, st'⟩
    have hf := create_order_frame env Side.buy
      (o.price * (1 - cfg.drop_to_buy)) o.origQty st
    rw [hc] at hf
    cases res <;> simp_all
  · simp

/-- Fields of the state that the replenishment fold never touches. -/
theorem replace_fold_frame (env : Env) (cfg : TraderConfig) :
    ∀ (todo : List Order) (st : GState),
    ((todo.foldl (replace_buy env cfg) st).base_price = st.base_price ∧
     (todo.foldl (replace_buy env cfg) st).new_cycle_flag = st.new_cycle_flag ∧
     (todo.foldl (replace_buy env cfg) st).buy_order_filled = st.buy_order_filled)
  | [], st => by simp
  | o :: rest, st => by
      have h1 := replace_buy_frame env cfg st o
      have ih := replace_fold_frame env cfg rest (replace_buy env cfg st o)
      simp only [List.foldl_cons]
      exact ⟨h1.1 ▸ ih.1, h1.2.1 ▸ ih.2.1, h1.2.2 ▸ ih.2.2⟩

/-- The replenishment pass leaves the base price unchanged, and can only
leave the new-cycle flag unchanged or raise it in the completion branch. -/
theorem check_and_replace_base (env : Env) (cfg : TraderConfig)
    (st : GState) :
    (check_and_replace_buy_orders env cfg st).base_price = st.base_price := by
  by_cases h : allSellsFilled env st.sell_orders ∧ 0 < st.sell_orders.length
  · cases hl : st.sell_orders.getLast? <;>
      simp [check_and_replace_buy_orders, h, hl]
  · simpa [check_and_replace_buy_orders, h] using
      (replace_fold_frame env cfg st.sell_orders st).1

/-- The price-rise check touches nothing but the new-cycle flag. -/
theorem check_price_rise_frame (env : Env) (cfg : TraderConfig)
    (st : GState) :
    (check_price_rise env cfg st).base_price = st.base_price ∧
    (check_price_rise env cfg st).buy_orders = st.buy_orders ∧
    (check_price_rise env cfg st).sell_orders = st.sell_orders := by
  by_cases h : st.buy_order_filled = false ∧
      ¬ anyBuyPartiallyFilled env st.buy_orders
  · cases hp : env.lastPrice with
    | none => simp [check_price_rise, h, hp]
    | some p =>
        cases hb : st.base_price with
        | none => simp [check_price_rise, h, hp, hb]
        | some bp =>
            by_cases hc : bp * (1 + cfg.rise_to_sell) < p <;>
              simp [check_price_rise, h, hp, hb, hc]
  · simp [check_price_rise, h]

/-! ## Characterisation of the conversion pass when every submission
succeeds -/

theorem convert_buy_spec (env : Env) (si : SymbolInfo)
    (cfg : TraderConfig) (st : GState) (o : Order)
    (hsi : env.symbolInfo = some si) (hok : ∀ k, env.createOk k = true) :
    (convert_buy env cfg st o).log = st.log ++ sellAttemptOf cfg env o ∧
    (convert_buy env cfg st o).sell_orders.map orderKey =
      st.sell_orders.map orderKey ++ sellRecordOf cfg env si o := by
  by_cases h1 : statusOf env o.id = some OrderStatus.FILLED ∨
      statusOf env o.id = some OrderStatus.PARTIALLY_FILLED
  · by_cases h2 : o.origQty = filledOf env o.id
    · have hg : convGuard env o := ⟨h1, h2⟩
      have hc := create_order_ok env si Side.sell
        (o.price * (1 + cfg.rise_to_sell)) (filledOf env o.id)
        { st with buy_order_filled := true } hsi (hok _)
      simp [convert_buy, h1, h2, sell_retry, hc,
        sellAttemptOf, sellRecordOf, hg, orderKey]
    · have hg : ¬ convGuard env o := fun hcg => h2 hcg.2
      simp [convert_buy, h1, h2, sellAttemptOf, sellRecordOf, hg]
  · have hg : ¬ convGuard env o := fun hcg => h1 hcg.1
    simp [convert_buy, h1, sellAttemptOf, sellRecordOf, hg]

theorem convert_fold_spec (env : Env) (si : SymbolInfo)
    (cfg : TraderConfig)
    (hsi : env.symbolInfo = some si) (hok : ∀ k, env.createOk k = true) :
    ∀ (todo : List Order) (st : GState),
    ((todo.foldl (convert_buy env cfg) st).log =
        st.log ++ todo.flatMap (sellAttemptOf cfg env)) ∧
    ((todo.foldl (convert_buy env cfg) st).sell_orders.map orderKey =
        st.sell_orders.map orderKey ++ todo.flatMap (sellRecordOf cfg env si))
  | [], st => by simp
  | o :: rest, st => by
      have h1 := convert_buy_spec env si cfg st o hsi hok
      have ih := convert_fold_spec env si cfg hsi hok rest
        (convert_buy env cfg st o)
      simp only [List.foldl_cons, List.flatMap_cons]
      constructor
      · rw [ih.1, h1.1, List.append_assoc]
      · rw [ih.2, h1.2, List.append_assoc]

/-! ## Characterisation of ladder placement when every submission
succeeds -/

theorem place_buy_orders_go_spec (env : Env) (si : SymbolInfo) (qty : ℚ)
    (hsi : env.symbolInfo = some si) (hok : ∀ k, env.createOk k = true) :
    ∀ (prices : List ℚ) (st : GState),
    ((place_buy_orders_go env qty prices st).log =
        st.log ++ prices.map (fun p => ⟨Side.buy, p, qty, true⟩)) ∧
    ((place_buy_orders_go env qty prices st).buy_orders.map orderKey =
        st.buy_orders.map orderKey ++
          prices.map (fun p => (Side.buy, si.normPrice p, si.normQty qty))) ∧
    ((place_buy_orders_go env qty prices st).sell_orders = st.sell_orders)
  | [], st => by simp [place_buy_orders_go]
  | p :: rest, st => by
      have hc := create_order_ok env si Side.buy p qty st
        hsi (hok _)
      have ih := place_buy_orders_go_spec env si qty hsi hok
        rest
        { st with nextId := st.nextId + 1
                  callIdx := st.callIdx + 1
                  log := st.log ++ [⟨Side.buy, p, qty, true⟩]
                  buy_orders := st.buy_orders ++
                    [⟨st.nextId, Side.buy, si.normPrice p, si.normQty qty⟩] }
      refine ⟨?_, ?_, ?_⟩
      · rw [place_buy_orders_go, hc]
        simpa [List.append_assoc] using ih.1
      · rw [place_buy_orders_go, hc]
        simpa [orderKey, List.append_assoc] using ih.2.1
      · rw [place_buy_orders_go, hc]
        simpa using ih.2.2

/-! ## C2: the shape of the initial buy ladder -/

/-- C2.  For a cycle start with base price `P`, when no submission
fails, `place_buy_orders` submits exactly `max_buy_times` limit buys,
the `i`-th (for `i = 1..N`, in order) with raw price
`P * (1 - drop_to_buy * i)` (before tick-size rounding) and raw
quantity `(total_margin / N) * leverage / P`, and records that many new
tracked buy orders. -/
theorem claim_C2 (env : Env) (cfg : TraderConfig) (si : SymbolInfo)
    (P : ℚ) (st : GState)
    (hsi : env.symbolInfo = some si) (hok : ∀ k, env.createOk k = true) :
    (place_buy_orders env cfg P st).log =
      st.log ++ (List.range' 1 cfg.max_buy_times).map
        (fun i => ⟨Side.buy, P * (1 - cfg.drop_to_buy * (i : ℚ)),
          cfg.total_margin / (cfg.max_buy_times : ℚ) * cfg.leverage / P,
          true⟩) ∧
    (place_buy_orders env cfg P st).buy_orders.length =
      st.buy_orders.length + cfg.max_buy_times := by
  have h := place_buy_orders_go_spec env si
    (cfg.total_margin / (cfg.max_buy_times : ℚ) * cfg.leverage / P)
    hsi hok
    ((List.range' 1 cfg.max_buy_times).map
      (fun (i : ℕ) => P * (1 - cfg.drop_to_buy * (i : ℚ)))) st
  constructor
  · rw [place_buy_orders, h.1, List.map_map]
    rfl
  · have h2 := congrArg List.length h.2.1
    simpa [place_buy_orders] using h2

/-- Concrete instances for the C2 witness: base price 600,
`drop_to_buy = 0.001`, two rungs, margin 1200 at leverage 1. -/
def siW : SymbolInfo := ⟨fun p => p, fun q => q⟩

def envW_C2 : Env :=
  ⟨some siW, fun _ => true, fun _ => some (OrderStatus.NEW, 0), some 600⟩

def cfgW_C2 : TraderConfig :=
  { leverage := 1, total_margin := 1200, drop_to_buy := 1/1000,
    rise_to_sell := 1/1000, max_buy_times := 2 }

/-- Witness for C2, at the spec's example: `basePrice = 600`,
`drop_to_buy = 0.001`, `max_buy_times = 2` gives submitted prices
`599.4` and `598.8` before rounding. -/
theorem claim_C2_witness :
    envW_C2.symbolInfo = some siW ∧ (∀ k, envW_C2.createOk k = true) ∧
    ((place_buy_orders envW_C2 cfgW_C2 600 initState).log =
      initState.log ++ (List.range' 1 cfgW_C2.max_buy_times).map
        (fun i => ⟨Side.buy, 600 * (1 - cfgW_C2.drop_to_buy * (i : ℚ)),
          cfgW_C2.total_margin / (cfgW_C2.max_buy_times : ℚ) *
            cfgW_C2.leverage / 600, true⟩) ∧
      (place_buy_orders envW_C2 cfgW_C2 600 initState).buy_orders.length =
        initState.buy_orders.length + cfgW_C2.max_buy_times) ∧
    (List.range' 1 cfgW_C2.max_buy_times).map
        (fun i => 600 * (1 - cfgW_C2.drop_to_buy * (i : ℚ))) =
      [(599.4 : ℚ), (598.8 : ℚ)] :=
  ⟨rfl, fun _ => rfl,
   claim_C2 envW_C2 cfgW_C2 siW 600 initState rfl (fun _ => rfl),
   by simp [cfgW_C2, List.range']; norm_num⟩

/-! ## C4: conversion of fully filled buys into sells -/

/-- C4.  When no submission fails, one pass of
`check_and_place_sell_orders` submits, for each tracked buy in order,
exactly one sell if and only if the buy's reported executed quantity
equals its full requested quantity (and its status is FILLED or
PARTIALLY_FILLED), with raw price `buyPrice * (1 + rise_to_sell)` and
quantity equal to the reported executed quantity; and it records exactly
those sells.  A buy whose report does not meet the full-fill condition
(in particular one that is only partially filled) contributes no sell. -/
theorem claim_C4 (env : Env) (cfg : TraderConfig) (si : SymbolInfo)
    (st : GState)
    (hsi : env.symbolInfo = some si) (hok : ∀ k, env.createOk k = true) :
    (check_and_place_sell_orders env cfg st).log =
      st.log ++ st.buy_orders.flatMap (sellAttemptOf cfg env) ∧
    (check_and_place_sell_orders env cfg st).sell_orders.map orderKey =
      st.sell_orders.map orderKey ++
        st.buy_orders.flatMap (sellRecordOf cfg env si) := by
  unfold check_and_place_sell_orders
  exact convert_fold_spec env si cfg hsi hok st.buy_orders st

/-- Concrete instances for the C4 witness: one fully filled buy at price
598.8 for quantity 1.5 and one partially filled buy; the fully filled
one yields the sell at `598.8 * 1.001 = 599.3988`. -/
def envW_C4 : Env :=
  ⟨some siW, fun _ => true,
   fun i => if i = 10 then some (OrderStatus.FILLED, 1.5)
     else some (OrderStatus.PARTIALLY_FILLED, 0.5), none⟩

def cfgW_C4 : TraderConfig :=
  { leverage := 1, total_margin := 1200, drop_to_buy := 1/1000,
    rise_to_sell := 1/1000, max_buy_times := 2 }

def stW_C4 : GState :=
  { initState with
    buy_orders := [⟨10, Side.buy, 598.8, 1.5⟩, ⟨11, Side.buy, 598.8, 1.5⟩]
    nextId := 12 }

/-- Witness for C4, at the spec's example: the full fill at price
`598.8`, quantity `1.5`, `rise_to_sell = 0.001` submits a sell at
`599.3988` for `1.5`, while the partially filled buy submits nothing. -/
theorem claim_C4_witness :
    envW_C4.symbolInfo = some siW ∧ (∀ k, envW_C4.createOk k = true) ∧
    ((check_and_place_sell_orders envW_C4 cfgW_C4 stW_C4).log =
      stW_C4.log ++ stW_C4.buy_orders.flatMap (sellAttemptOf cfgW_C4 envW_C4) ∧
     (check_and_place_sell_orders envW_C4 cfgW_C4 stW_C4).sell_orders.map orderKey =
      stW_C4.sell_orders.map orderKey ++
        stW_C4.buy_orders.flatMap (sellRecordOf cfgW_C4 envW_C4 siW)) ∧
    stW_C4.buy_orders.flatMap (sellAttemptOf cfgW_C4 envW_C4) =
      [⟨Side.sell, (599.3988 : ℚ), (1.5 : ℚ), true⟩] :=
  ⟨rfl, fun _ => rfl,
   claim_C4 envW_C4 cfgW_C4 siW stW_C4 rfl (fun _ => rfl),
   by
    simp [stW_C4, sellAttemptOf, convGuard, statusOf, filledOf,
      check_order_status, envW_C4, cfgW_C4, initState]
    norm_num⟩

/-! ## C5: retry behaviour of the sell-submission loop -/

theorem sell_retry_first_ok (env : Env) (si : SymbolInfo)
    (price qty : ℚ) (st : GState) (n : ℕ)
    (hsi : env.symbolInfo = some si)
    (h0 : env.createOk st.callIdx = true) :
    sell_retry env price qty (n + 1) st =
      (some ⟨st.nextId, Side.sell, si.normPrice price, si.normQty qty⟩,
       { st with nextId := st.nextId + 1
                 callIdx := st.callIdx + 1
                 log := st.log ++ [⟨Side.sell, price, qty, true⟩]
                 sell_orders := st.sell_orders ++
                   [⟨st.nextId, Side.sell, si.normPrice price, si.normQty qty⟩]
                 sell_order_executed := true }) := by
  simp [sell_retry, create_order_ok env si Side.sell price qty st hsi h0]

theorem sell_retry_fail_step (env : Env)
    (price qty : ℚ) (st : GState) (n : ℕ)
    (h0 : env.createOk st.callIdx = false) :
    sell_retry env price qty (n + 1) st =
      sell_retry env price qty n
        { st with callIdx := st.callIdx + 1
                  log := st.log ++ [⟨Side.sell, price, qty, false⟩] } := by
  simp [sell_retry, create_order_fail env Side.sell price qty st (Or.inr h0)]

/-- C5.  When a tracked buy is reported fully filled
(status FILLED with executed quantity equal to its requested quantity),
the conversion body attempts the sell submission up to three times
within the tick: if the first attempt succeeds the buy is dropped and
the sell recorded after one submission; if the first fails and the
second succeeds, or the first two fail and the third succeeds, the buy
is likewise dropped and the sell recorded; and if all three attempts
fail the buy order and the tracked sells are left exactly as they were
(so the conversion is retried on a later tick), with exactly three
failed submissions logged. -/
theorem claim_C5 (env : Env) (cfg : TraderConfig) (si : SymbolInfo)
    (st : GState) (o : Order)
    (hsi : env.symbolInfo = some si)
    (hst : env.status o.id = some (OrderStatus.FILLED, o.origQty)) :
    ((env.createOk st.callIdx = false ∧
      env.createOk (st.callIdx + 1) = false ∧
      env.createOk (st.callIdx + 2) = false) →
      (convert_buy env cfg st o).buy_orders = st.buy_orders ∧
      (convert_buy env cfg st o).sell_orders = st.sell_orders ∧
      (convert_buy env cfg st o).log = st.log ++
        [⟨Side.sell, o.price * (1 + cfg.rise_to_sell), o.origQty, false⟩,
         ⟨Side.sell, o.price * (1 + cfg.rise_to_sell), o.origQty, false⟩,
         ⟨Side.sell, o.price * (1 + cfg.rise_to_sell), o.origQty, false⟩] ∧
      (convert_buy env cfg st o).callIdx = st.callIdx + 3) ∧
    (env.createOk st.callIdx = true →
      (convert_buy env cfg st o).buy_orders =
        st.buy_orders.filter (fun b => b.id ≠ o.id) ∧
      (convert_buy env cfg st o).sell_orders = st.sell_orders ++
        [⟨st.nextId, Side.sell,
          si.normPrice (o.price * (1 + cfg.rise_to_sell)),
          si.normQty o.origQty⟩] ∧
      (convert_buy env cfg st o).log = st.log ++
        [⟨Side.sell, o.price * (1 + cfg.rise_to_sell), o.origQty, true⟩]) ∧
    ((env.createOk st.callIdx = false ∧
      env.createOk (st.callIdx + 1) = true) →
      (convert_buy env cfg st o).buy_orders =
        st.buy_orders.filter (fun b => b.id ≠ o.id) ∧
      (convert_buy env cfg st o).sell_orders = st.sell_orders ++
        [⟨st.nextId, Side.sell,
          si.normPrice (o.price * (1 + cfg.rise_to_sell)),
          si.normQty o.origQty⟩] ∧
      (convert_buy env cfg st o).log = st.log ++
        [⟨Side.sell, o.price * (1 + cfg.rise_to_sell), o.origQty, false⟩,
         ⟨Side.sell, o.price * (1 + cfg.rise_to_sell), o.origQty, true⟩]) ∧
    ((env.createOk st.callIdx = false ∧
      env.createOk (st.callIdx + 1) = false ∧
      env.createOk (st.callIdx + 2) = true) →
      (convert_buy env cfg st o).buy_orders =
        st.buy_orders.filter (fun b => b.id ≠ o.id) ∧
      (convert_buy env cfg st o).sell_orders = st.sell_orders ++
        [⟨st.nextId, Side.sell,
          si.normPrice (o.price * (1 + cfg.rise_to_sell)),
          si.normQty o.origQty⟩] ∧
      (convert_buy env cfg st o).log = st.log ++
        [⟨Side.sell, o.price * (1 + cfg.rise_to_sell), o.origQty, false⟩,
         ⟨Side.sell, o.price * (1 + cfg.rise_to_sell), o.origQty, false⟩,
         ⟨Side.sell, o.price * (1 + cfg.rise_to_sell), o.origQty, true⟩]) := by
  have hs : statusOf env o.id = some OrderStatus.FILLED := by
    simp [statusOf, check_order_status, hst]
  have hf : filledOf env o.id = o.origQty := by
    simp [filledOf, check_order_status, hst]
  have hcb : convert_buy env cfg st o =
      (match sell_retry env (o.price * (1 + cfg.rise_to_sell))
          (filledOf env o.id) 3 { st with buy_order_filled := true } with
       | (some _, st') =>
          { st' with
            buy_orders := st'.buy_orders.filter (fun b => b.id ≠ o.id) }
       | (none, st') => st') := by
    simp [convert_buy, hs, hf]
  refine ⟨fun hfl => ?_, fun hk0 => ?_, fun hfs => ?_, fun hffs => ?_⟩
  · rw [hcb, sell_retry_fail_step env _ _ _ _ (by simpa using hfl.1),
      sell_retry_fail_step env _ _ _ _ (by simpa using hfl.2.1),
      sell_retry_fail_step env _ _ _ _ (by simpa using hfl.2.2),
      sell_retry]
    simp [hf]
  · rw [hcb, sell_retry_first_ok env si _ _ _ _ hsi (by simpa using hk0)]
    simp [hf]
  · rw [hcb, sell_retry_fail_step env _ _ _ _ (by simpa using hfs.1),
      sell_retry_first_ok env si _ _ _ _ hsi (by simpa using hfs.2)]
    simp [hf]
  · rw [hcb, sell_retry_fail_step env _ _ _ _ (by simpa using hffs.1),
      sell_retry_fail_step env _ _ _ _ (by simpa using hffs.2.1),
      sell_retry_first_ok env si _ _ _ _ hsi (by simpa using hffs.2.2)]
    simp [hf]

/-- Concrete instances for the C5 witness: a fully filled buy whose
sell submission always fails. -/
def envW_C5 : Env :=
  ⟨some siW, fun _ => false,
   fun _ => some (OrderStatus.FILLED, 1.5), none⟩

def cfgW_C5 : TraderConfig :=
  { leverage := 1, total_margin := 1200, drop_to_buy := 1/1000,
    rise_to_sell := 1/1000, max_buy_times := 2 }

def stW_C5 : GState :=
  { initState with
    buy_orders := [⟨10, Side.buy, 598.8, 1.5⟩]
    nextId := 11 }

/-- Witness for C5: with every submission failing, the three attempts
are made and the buy stays tracked with no sell recorded. -/
theorem claim_C5_witness :
    envW_C5.symbolInfo = some siW ∧
    envW_C5.status 10 = some (OrderStatus.FILLED, (1.5 : ℚ)) ∧
    ((envW_C5.createOk stW_C5.callIdx = false ∧
      envW_C5.createOk (stW_C5.callIdx + 1) = false ∧
      envW_C5.createOk (stW_C5.callIdx + 2) = false) →
      (convert_buy envW_C5 cfgW_C5 stW_C5 ⟨10, Side.buy, 598.8, 1.5⟩).buy_orders =
        stW_C5.buy_orders ∧
      (convert_buy envW_C5 cfgW_C5 stW_C5 ⟨10, Side.buy, 598.8, 1.5⟩).sell_orders =
        stW_C5.sell_orders ∧
      (convert_buy envW_C5 cfgW_C5 stW_C5 ⟨10, Side.buy, 598.8, 1.5⟩).log =
        stW_C5.log ++
        [⟨Side.sell, (598.8 : ℚ) * (1 + cfgW_C5.rise_to_sell), (1.5 : ℚ), false⟩,
         ⟨Side.sell, (598.8 : ℚ) * (1 + cfgW_C5.rise_to_sell), (1.5 : ℚ), false⟩,
         ⟨Side.sell, (598.8 : ℚ) * (1 + cfgW_C5.rise_to_sell), (1.5 : ℚ), false⟩] ∧
      (convert_buy envW_C5 cfgW_C5 stW_C5 ⟨10, Side.buy, 598.8, 1.5⟩).callIdx =
        stW_C5.callIdx + 3) :=
  ⟨rfl, rfl,
   (claim_C5 envW_C5 cfgW_C5 siW stW_C5 ⟨10, Side.buy, 598.8, 1.5⟩ rfl rfl).1⟩

/-! ## C6: replenishment of buys from individually filled sells -/

theorem mem_filledIds (env : Env) {l : List Order} {s : Order}
    (hs : s ∈ l) :
    s.id ∈ filledIds env l ↔
      statusOf env s.id = some OrderStatus.FILLED := by
  unfold filledIds
  constructor
  · intro h
    obtain ⟨o, ho, hid⟩ := List.mem_map.mp h
    have := (List.mem_filter.mp ho).2
    rw [← hid]
    simpa using this
  · intro h
    exact List.mem_map.mpr ⟨s, List.mem_filter.mpr ⟨hs, by simpa using h⟩, rfl⟩

theorem replace_buy_ok (env : Env) (si : SymbolInfo)
    (cfg : TraderConfig) (st : GState) (o : Order)
    (hsi : env.symbolInfo = some si) (hok : ∀ k, env.createOk k = true) :
    (replace_buy env cfg st o).log = st.log ++ replAttemptOf cfg env o ∧
    (replace_buy env cfg st o).buy_orders.map orderKey =
      st.buy_orders.map orderKey ++ replRecordOf cfg env si o ∧
    (replace_buy env cfg st o).sell_orders =
      (if statusOf env o.id = some OrderStatus.FILLED then
        st.sell_orders.filter (fun s => s.id ≠ o.id)
      else st.sell_orders) := by
  by_cases hF : statusOf env o.id = some OrderStatus.FILLED
  · have hc := create_order_ok env si Side.buy
      (o.price * (1 - cfg.drop_to_buy)) o.origQty st hsi (hok _)
    simp [replace_buy, hF, hc, replAttemptOf, replRecordOf, orderKey]
  · simp [replace_buy, hF, replAttemptOf, replRecordOf]

theorem replace_fold_ok (env : Env) (si : SymbolInfo)
    (cfg : TraderConfig)
    (hsi : env.symbolInfo = some si) (hok : ∀ k, env.createOk k = true) :
    ∀ (todo : List Order) (st : GState),
    ((todo.foldl (replace_buy env cfg) st).log =
        st.log ++ todo.flatMap (replAttemptOf cfg env)) ∧
    ((todo.foldl (replace_buy env cfg) st).buy_orders.map orderKey =
        st.buy_orders.map orderKey ++
          todo.flatMap (replRecordOf cfg env si)) ∧
    ((todo.foldl (replace_buy env cfg) st).sell_orders =
        st.sell_orders.filter (fun s => s.id ∉ filledIds env todo))
  | [], st => by simp [filledIds]
  | o :: rest, st => by
      have h1 := replace_buy_ok env si cfg st o hsi hok
      have ih := replace_fold_ok env si cfg hsi hok rest
        (replace_buy env cfg st o)
      simp only [List.foldl_cons, List.flatMap_cons]
      refine ⟨?_, ?_, ?_⟩
      · rw [ih.1, h1.1, List.append_assoc]
      · rw [ih.2.1, h1.2.1, List.append_assoc]
      · rw [ih.2.2, h1.2.2]
        by_cases hF : statusOf env o.id = some OrderStatus.FILLED
        · rw [if_pos hF, List.filter_filter]
          have hids : filledIds env (o :: rest) =
              o.id :: filledIds env rest := by
            simp [filledIds, hF]
          rw [hids]
          apply List.filter_congr
          intro s _
          by_cases h2 : s.id = o.id <;> by_cases h3 : s.id ∈ filledIds env rest <;>
            simp [h2, h3]
        · rw [if_neg hF]
          have hids : filledIds env (o :: rest) = filledIds env rest := by
            simp [filledIds, hF]
          rw [hids]

theorem replace_fold_fail (env : Env)
    (cfg : TraderConfig) (hfail : ∀ k, env.createOk k = false) :
    ∀ (todo : List Order) (st : GState),
    ((todo.foldl (replace_buy env cfg) st).buy_orders = st.buy_orders) ∧
    ((todo.foldl (replace_buy env cfg) st).sell_orders = st.sell_orders)
  | [], st => by simp
  | o :: rest, st => by
      have hstep : (replace_buy env cfg st o).buy_orders = st.buy_orders ∧
          (replace_buy env cfg st o).sell_orders = st.sell_orders := by
        by_cases hF : statusOf env o.id = some OrderStatus.FILLED
        · have hc := create_order_fail env Side.buy
            (o.price * (1 - cfg.drop_to_buy)) o.origQty st
            (Or.inr (hfail _))
          simp [replace_buy, hF, hc]
        · simp [replace_buy, hF]
      have ih := replace_fold_fail env cfg hfail rest
        (replace_buy env cfg st o)
      simp only [List.foldl_cons]
      exact ⟨hstep.1 ▸ ih.1, hstep.2 ▸ ih.2⟩

/-- C6.  While at least one tracked sell is not FILLED, the
replenishment pass runs: when no submission fails it submits, for each
FILLED tracked sell in order, exactly one replacement buy at raw price
`sellPrice * (1 - drop_to_buy)` with quantity equal to the sell's
requested quantity, records exactly those buys, and drops exactly the
FILLED sells from tracking; and when every submission fails the tracked
sells and buys are left unchanged (the FILLED sells stay tracked for a
later retry). -/
theorem claim_C6 (env : Env) (cfg : TraderConfig) (si : SymbolInfo)
    (st : GState)
    (hsome : ∃ o ∈ st.sell_orders,
      statusOf env o.id ≠ some OrderStatus.FILLED) :
    ((env.symbolInfo = some si ∧ ∀ k, env.createOk k = true) →
      (check_and_replace_buy_orders env cfg st).log =
        st.log ++ st.sell_orders.flatMap (replAttemptOf cfg env) ∧
      (check_and_replace_buy_orders env cfg st).buy_orders.map orderKey =
        st.buy_orders.map orderKey ++
          st.sell_orders.flatMap (replRecordOf cfg env si) ∧
      (check_and_replace_buy_orders env cfg st).sell_orders =
        st.sell_orders.filter
          (fun s => statusOf env s.id ≠ some OrderStatus.FILLED)) ∧
    ((∀ k, env.createOk k = false) →
      (check_and_replace_buy_orders env cfg st).buy_orders = st.buy_orders ∧
      (check_and_replace_buy_orders env cfg st).sell_orders =
        st.sell_orders) := by
  obtain ⟨o0, ho0, hno0⟩ := hsome
  have hnall : ¬ (allSellsFilled env st.sell_orders ∧
      0 < st.sell_orders.length) := by
    rintro ⟨hall, -⟩
    exact hno0 (hall o0 ho0)
  have hbranch : check_and_replace_buy_orders env cfg st =
      st.sell_orders.foldl (replace_buy env cfg) st := by
    simp [check_and_replace_buy_orders, hnall]
  constructor
  · rintro ⟨hsi, hok⟩
    have h := replace_fold_ok env si cfg hsi hok
      st.sell_orders st
    refine ⟨hbranch ▸ h.1, hbranch ▸ h.2.1, ?_⟩
    rw [hbranch, h.2.2]
    apply List.filter_congr
    intro s hsm
    by_cases hF : statusOf env s.id = some OrderStatus.FILLED <;>
      simp [hF, (mem_filledIds env hsm)]
  · intro hfail
    have h := replace_fold_fail env cfg hfail st.sell_orders st
    exact ⟨hbranch ▸ h.1, hbranch ▸ h.2⟩

/-- Concrete instances for the C6 witness: sell 20 is FILLED, sell 21 is
still NEW, and every submission succeeds. -/
def envW_C6 : Env :=
  ⟨some siW, fun _ => true,
   fun i => if i = 20 then some (OrderStatus.FILLED, 1.5)
     else some (OrderStatus.NEW, 0), none⟩

def cfgW_C6 : TraderConfig :=
  { leverage := 1, total_margin := 1200, drop_to_buy := 1/1000,
    rise_to_sell := 1/1000, max_buy_times := 2 }

def stW_C6 : GState :=
  { initState with
    sell_orders := [⟨20, Side.sell, 599.4, 1.5⟩, ⟨21, Side.sell, 600, 1.5⟩]
    nextId := 22 }

/-- Witness for C6: with one FILLED sell and one open sell, the pass
replaces exactly the FILLED one. -/
theorem claim_C6_witness :
    (∃ o ∈ stW_C6.sell_orders,
      statusOf envW_C6 o.id ≠ some OrderStatus.FILLED) ∧
    ((envW_C6.symbolInfo = some siW ∧ ∀ k, envW_C6.createOk k = true) →
      (check_and_replace_buy_orders envW_C6 cfgW_C6 stW_C6).log =
        stW_C6.log ++ stW_C6.sell_orders.flatMap (replAttemptOf cfgW_C6 envW_C6) ∧
      (check_and_replace_buy_orders envW_C6 cfgW_C6 stW_C6).buy_orders.map orderKey =
        stW_C6.buy_orders.map orderKey ++
          stW_C6.sell_orders.flatMap (replRecordOf cfgW_C6 envW_C6 siW) ∧
      (check_and_replace_buy_orders envW_C6 cfgW_C6 stW_C6).sell_orders =
        stW_C6.sell_orders.filter
          (fun s => statusOf envW_C6 s.id ≠ some OrderStatus.FILLED)) ∧
    stW_C6.sell_orders.flatMap (replAttemptOf cfgW_C6 envW_C6) =
      [⟨Side.buy, (599.4 : ℚ) * (1 - cfgW_C6.drop_to_buy), (1.5 : ℚ), true⟩] := by
  have hsome : ∃ o ∈ stW_C6.sell_orders,
      statusOf envW_C6 o.id ≠ some OrderStatus.FILLED := by
    refine ⟨⟨21, Side.sell, 600, 1.5⟩, by simp [stW_C6, initState], ?_⟩
    simp [statusOf, check_order_status, envW_C6]
  refine ⟨hsome, (claim_C6 envW_C6 cfgW_C6 siW stW_C6 hsome).1, ?_⟩
  simp [stW_C6, replAttemptOf, statusOf, check_order_status, envW_C6,
    initState]

/-! ## C1 and C10: the cycle-completion branch -/

theorem filter_ne_last_aux (xs : List Order) (a : Order)
    (h : a.id ∉ xs.map Order.id) :
    (xs ++ [a]).filter (fun s => s.id ≠ a.id) = xs := by
  rw [List.filter_append]
  have h1 : xs.filter (fun s => s.id ≠ a.id) = xs := by
    apply List.filter_eq_self.mpr
    intro s hs
    simp only [decide_eq_true_eq]
    intro heq
    exact h (heq ▸ List.mem_map.mpr ⟨s, hs, rfl⟩)
  have h2 : [a].filter (fun s => s.id ≠ a.id) = [] := by simp
  rw [h1, h2, List.append_nil]

theorem filter_ne_getLast_eq_dropLast (l : List Order) (h : l ≠ [])
    (hnd : (l.map Order.id).Nodup) :
    l.filter (fun s => s.id ≠ (l.getLast h).id) = l.dropLast := by
  have hdecomp : l.dropLast ++ [l.getLast h] = l :=
    List.dropLast_append_getLast h
  have hmap : l.map Order.id =
      l.dropLast.map Order.id ++ [(l.getLast h).id] := by
    conv_lhs => rw [← hdecomp]
    simp
  have hnotmem : (l.getLast h).id ∉ l.dropLast.map Order.id := by
    rw [hmap] at hnd
    have := List.nodup_append.mp hnd
    intro hmem
    exact this.2.2 hmem (by simp)
  have ha := filter_ne_last_aux l.dropLast (l.getLast h) hnotmem
  rw [hdecomp] at ha
  exact ha

/-- The ladder-placement loop never touches the tracked sells,
regardless of submission outcomes. -/
theorem place_buy_orders_go_sells (env : Env) (qty : ℚ) :
    ∀ (prices : List ℚ) (st : GState),
    (place_buy_orders_go env qty prices st).sell_orders = st.sell_orders
  | [], st => by simp [place_buy_orders_go]
  | p :: rest, st => by
      rcases hc : create_order env Side.buy p qty st with ⟨res, st'⟩
      have hf := create_order_frame env Side.buy p qty st
      rw [hc] at hf
      cases res with
      | none => simp only [place_buy_orders_go, hc]; exact hf.2.1
      | some o =>
          have ih := place_buy_orders_go_sells env qty rest
            { st' with buy_orders := st'.buy_orders ++ [o] }
          simp only [place_buy_orders_go, hc]
          rw [ih]
          exact hf.2.1

/-- A cycle start never touches the tracked sells. -/
theorem start_trade_cycle_sells (env : Env) (cfg : TraderConfig)
    (st : GState) :
    (start_trade_cycle env cfg st).sell_orders = st.sell_orders := by
  cases hp : env.lastPrice with
  | none => simp [start_trade_cycle, cancel_all_orders, hp]
  | some bp =>
      simp only [start_trade_cycle, cancel_all_orders, hp, place_buy_orders]
      rw [place_buy_orders_go_sells]

/-- C1 (amended).  With the new-cycle flag clear and distinct order
ids, the replenishment pass raises the flag through its
cycle-completion branch exactly when the set of tracked sells is
nonempty and every one of them reports FILLED; and on such a tick the
last-checked sell is dropped from tracking while no submission of any
kind (in particular no replenishment buy) is made. -/
theorem claim_C1_amended (env : Env) (cfg : TraderConfig) (st : GState)
    (hflag : st.new_cycle_flag = false)
    (hnd : (st.sell_orders.map Order.id).Nodup) :
    ((check_and_replace_buy_orders env cfg st).new_cycle_flag = true ↔
      (st.sell_orders ≠ [] ∧ allSellsFilled env st.sell_orders)) ∧
    (st.sell_orders ≠ [] → allSellsFilled env st.sell_orders →
      (check_and_replace_buy_orders env cfg st).sell_orders =
        st.sell_orders.dropLast ∧
      (check_and_replace_buy_orders env cfg st).log = st.log ∧
      (check_and_replace_buy_orders env cfg st).buy_orders = st.buy_orders ∧
      (check_and_replace_buy_orders env cfg st).callIdx = st.callIdx) := by
  by_cases hcond : allSellsFilled env st.sell_orders ∧
      0 < st.sell_orders.length
  · have hne : st.sell_orders ≠ [] := by
      intro hnil
      rw [hnil] at hcond
      exact absurd hcond.2 (by simp)
    have hlast : st.sell_orders.getLast? =
        some (st.sell_orders.getLast hne) := List.getLast?_eq_getLast _ hne
    have hres : check_and_replace_buy_orders env cfg st =
        { st with
          sell_orders := st.sell_orders.filter
            (fun s => s.id ≠ (st.sell_orders.getLast hne).id)
          new_cycle_flag := true } := by
      simp [check_and_replace_buy_orders, hcond, hlast]
    rw [hres]
    refine ⟨by simp [hne, hcond.1], fun _ _ => ?_⟩
    exact ⟨filter_ne_getLast_eq_dropLast _ hne hnd, rfl, rfl, rfl⟩
  · have hbranch : check_and_replace_buy_orders env cfg st =
        st.sell_orders.foldl (replace_buy env cfg) st := by
      simp [check_and_replace_buy_orders, hcond]
    have hfr := replace_fold_frame env cfg st.sell_orders st
    constructor
    · rw [hbranch]
      constructor
      · intro habs
        rw [hfr.2.1, hflag] at habs
        exact absurd habs (by simp)
      · rintro ⟨hne, hall⟩
        exact absurd ⟨hall, List.length_pos.mpr hne⟩ hcond
    · intro hne hall
      exact absurd ⟨hall, List.length_pos.mpr hne⟩ hcond

/-- Trivial environment and states used by the C1 counterexample. -/
def envC1 : Env := ⟨none, fun _ => false, fun _ => none, none⟩

def cfgC1 : TraderConfig :=
  { leverage := 1, total_margin := 1200, drop_to_buy := 1/1000,
    rise_to_sell := 1/1000, max_buy_times := 2 }

def stC1 : GState := { initState with new_cycle_flag := false }

/-- Counterexample to C1 as stated: with no tracked sells, every
tracked sell order vacuously has status FILLED, yet the completion
branch does not raise the new-cycle flag. -/
theorem claim_C1_counterexample :
    (∀ o ∈ stC1.sell_orders, statusOf envC1 o.id = some OrderStatus.FILLED) ∧
    (check_and_replace_buy_orders envC1 cfgC1 stC1).new_cycle_flag = false ∧
    stC1.new_cycle_flag = false := by
  refine ⟨by simp [stC1, initState], ?_, rfl⟩
  simp [check_and_replace_buy_orders, stC1, initState, allSellsFilled]

/-- Concrete instances for the C1 witness: two tracked sells, both
FILLED, flag initially clear. -/
def envW_C1 : Env :=
  ⟨none, fun _ => false, fun _ => some (OrderStatus.FILLED, 1), none⟩

def cfgW_C1 : TraderConfig :=
  { leverage := 1, total_margin := 1200, drop_to_buy := 1/1000,
    rise_to_sell := 1/1000, max_buy_times := 2 }

def stW_C1 : GState :=
  { initState with
    sell_orders := [⟨40, Side.sell, 600, 1⟩, ⟨41, Side.sell, 601, 1⟩]
    new_cycle_flag := false
    nextId := 42 }

/-- Witness for C1 (amended): both tracked sells FILLED raises the flag
through the completion branch, drops the last-checked sell, and submits
nothing. -/
theorem claim_C1_witness :
    (stW_C1.new_cycle_flag = false ∧
     (stW_C1.sell_orders.map Order.id).Nodup) ∧
    (((check_and_replace_buy_orders envW_C1 cfgW_C1 stW_C1).new_cycle_flag = true ↔
       (stW_C1.sell_orders ≠ [] ∧ allSellsFilled envW_C1 stW_C1.sell_orders)) ∧
     (stW_C1.sell_orders ≠ [] → allSellsFilled envW_C1 stW_C1.sell_orders →
       (check_and_replace_buy_orders envW_C1 cfgW_C1 stW_C1).sell_orders =
         stW_C1.sell_orders.dropLast ∧
       (check_and_replace_buy_orders envW_C1 cfgW_C1 stW_C1).log = stW_C1.log ∧
       (check_and_replace_buy_orders envW_C1 cfgW_C1 stW_C1).buy_orders =
         stW_C1.buy_orders ∧
       (check_and_replace_buy_orders envW_C1 cfgW_C1 stW_C1).callIdx =
         stW_C1.callIdx)) ∧
    allSellsFilled envW_C1 stW_C1.sell_orders ∧
    stW_C1.sell_orders.dropLast = [⟨40, Side.sell, 600, 1⟩] := by
  have hnd : (stW_C1.sell_orders.map Order.id).Nodup := by
    simp [stW_C1, initState]
  have hall : allSellsFilled envW_C1 stW_C1.sell_orders := by
    intro o ho
    simp [statusOf, check_order_status, envW_C1]
  exact ⟨⟨rfl, hnd⟩,
    claim_C1_amended envW_C1 cfgW_C1 stW_C1 rfl hnd,
    hall, by simp [stW_C1, initState]⟩

/-- C10.  When the completion branch fires with at least two tracked
sells (all reporting FILLED, distinct ids), exactly one entry — the
last one iterated by the status loop — is removed from the tracked
sells, the flag is raised, nothing is submitted, and every other
(filled) sell is still tracked after the ensuing cycle restart,
whatever that restart's environment does. -/
theorem claim_C10 (env : Env) (cfg : TraderConfig) (st : GState)
    (hlen : 2 ≤ st.sell_orders.length)
    (hall : allSellsFilled env st.sell_orders)
    (hnd : (st.sell_orders.map Order.id).Nodup) :
    (check_and_replace_buy_orders env cfg st).sell_orders =
      st.sell_orders.dropLast ∧
    (check_and_replace_buy_orders env cfg st).sell_orders.length =
      st.sell_orders.length - 1 ∧
    (check_and_replace_buy_orders env cfg st).new_cycle_flag = true ∧
    (check_and_replace_buy_orders env cfg st).log = st.log ∧
    (∀ env2 : Env,
      (start_trade_cycle env2 cfg
        (check_and_replace_buy_orders env cfg st)).sell_orders =
      st.sell_orders.dropLast) := by
  have hpos : 0 < st.sell_orders.length := lt_of_lt_of_le (by norm_num) hlen
  have hne : st.sell_orders ≠ [] := List.length_pos.mp hpos
  have hlast : st.sell_orders.getLast? =
      some (st.sell_orders.getLast hne) := List.getLast?_eq_getLast _ hne
  have hres : check_and_replace_buy_orders env cfg st =
      { st with
        sell_orders := st.sell_orders.filter
          (fun s => s.id ≠ (st.sell_orders.getLast hne).id)
        new_cycle_flag := true } := by
    simp [check_and_replace_buy_orders, hall, hpos, hlast]
  have hdrop := filter_ne_getLast_eq_dropLast _ hne hnd
  refine ⟨by rw [hres]; exact hdrop, ?_, by rw [hres], by rw [hres],
    fun env2 => ?_⟩
  · rw [hres]
    show (st.sell_orders.filter
      (fun s => s.id ≠ (st.sell_orders.getLast hne).id)).length =
      st.sell_orders.length - 1
    rw [hdrop]
    exact List.length_dropLast _
  · rw [start_trade_cycle_sells, hres]
    exact hdrop

/-- Concrete instances for the C10 witness: three tracked sells, all
FILLED. -/
def envW_C10 : Env :=
  ⟨some siW, fun _ => true, fun _ => some (OrderStatus.FILLED, 1.5), some 600⟩

def cfgW_C10 : TraderConfig :=
  { leverage := 1, total_margin := 1200, drop_to_buy := 1/1000,
    rise_to_sell := 1/1000, max_buy_times := 2 }

def stW_C10 : GState :=
  { initState with
    sell_orders := [⟨30, Side.sell, 599.4, 1.5⟩, ⟨31, Side.sell, 600, 1.5⟩,
      ⟨32, Side.sell, 600.6, 1.5⟩]
    new_cycle_flag := false
    nextId := 33 }

/-- Witness for C10: with three FILLED sells only the last-iterated one
(id 32) is dropped; ids 30 and 31 survive the restart. -/
theorem claim_C10_witness :
    (2 ≤ stW_C10.sell_orders.length ∧
     allSellsFilled envW_C10 stW_C10.sell_orders ∧
     (stW_C10.sell_orders.map Order.id).Nodup) ∧
    ((check_and_replace_buy_orders envW_C10 cfgW_C10 stW_C10).sell_orders =
      stW_C10.sell_orders.dropLast ∧
     (check_and_replace_buy_orders envW_C10 cfgW_C10 stW_C10).sell_orders.length =
      stW_C10.sell_orders.length - 1 ∧
     (check_and_replace_buy_orders envW_C10 cfgW_C10 stW_C10).new_cycle_flag = true ∧
     (check_and_replace_buy_orders envW_C10 cfgW_C10 stW_C10).log = stW_C10.log ∧
     (∀ env2 : Env,
       (start_trade_cycle env2 cfgW_C10
         (check_and_replace_buy_orders envW_C10 cfgW_C10 stW_C10)).sell_orders =
       stW_C10.sell_orders.dropLast)) ∧
    stW_C10.sell_orders.dropLast =
      [⟨30, Side.sell, 599.4, 1.5⟩, ⟨31, Side.sell, 600, 1.5⟩] := by
  have h1 : 2 ≤ stW_C10.sell_orders.length := by simp [stW_C10, initState]
  have h2 : allSellsFilled envW_C10 stW_C10.sell_orders := by
    intro o ho
    simp [statusOf, check_order_status, envW_C10]
  have h3 : (stW_C10.sell_orders.map Order.id).Nodup := by
    simp [stW_C10, initState]
  exact ⟨⟨h1, h2, h3⟩,
    claim_C10 envW_C10 cfgW_C10 stW_C10 h1 h2 h3,
    by simp [stW_C10, initState]⟩

/-! ## C7: the price-rise restart trigger -/

/-- C7.  With the flag initially clear, a successful price fetch and a
set base price, the price-rise check raises the new-cycle flag exactly
when no buy has filled this cycle, no tracked buy reports
PARTIALLY_FILLED, and the fetched price strictly exceeds
`basePrice * (1 + rise_to_sell)`; and whenever a buy has filled or one
is partially filled the whole state is left untouched, regardless of
the price. -/
theorem claim_C7 (env : Env) (cfg : TraderConfig) (st : GState)
    (p bp : ℚ)
    (hp : env.lastPrice = some p) (hbp : st.base_price = some bp)
    (hflag : st.new_cycle_flag = false) :
    ((check_price_rise env cfg st).new_cycle_flag = true ↔
      (st.buy_order_filled = false ∧
       ¬ anyBuyPartiallyFilled env st.buy_orders ∧
       bp * (1 + cfg.rise_to_sell) < p)) ∧
    (st.buy_order_filled = true → check_price_rise env cfg st = st) ∧
    (anyBuyPartiallyFilled env st.buy_orders →
      check_price_rise env cfg st = st) := by
  by_cases h1 : st.buy_order_filled = false ∧
      ¬ anyBuyPartiallyFilled env st.buy_orders
  · by_cases hc : bp * (1 + cfg.rise_to_sell) < p
    · have hres : check_price_rise env cfg st =
          { st with new_cycle_flag := true } := by
        simp [check_price_rise, h1, hp, hbp, hc]
      rw [hres]
      refine ⟨by simp [h1.1, h1.2, hc], fun habs => ?_, fun habs => ?_⟩
      · rw [habs] at h1; exact absurd h1.1 (by simp)
      · exact absurd habs h1.2
    · have hres : check_price_rise env cfg st = st := by
        simp [check_price_rise, h1, hp, hbp, hc]
      rw [hres]
      exact ⟨by simp [hflag, hc], fun _ => rfl, fun _ => rfl⟩
  · have hres : check_price_rise env cfg st = st := by
      simp [check_price_rise, h1]
    rw [hres]
    refine ⟨?_, fun _ => rfl, fun _ => rfl⟩
    rw [hflag]
    constructor
    · intro habs
      exact absurd habs (by simp)
    · rintro ⟨ha, hb, -⟩
      exact absurd ⟨ha, hb⟩ h1

/-- Concrete instances for the C7 witness: no fills, price risen above
the threshold. -/
def envW_C7 : Env :=
  ⟨some siW, fun _ => true, fun _ => some (OrderStatus.NEW, 0), some 601⟩

def cfgW_C7 : TraderConfig :=
  { leverage := 1, total_margin := 1200, drop_to_buy := 1/1000,
    rise_to_sell := 1/1000, max_buy_times := 2 }

def stW_C7 : GState :=
  { initState with
    buy_orders := [⟨0, Side.buy, 599, 1⟩]
    base_price := some 600
    new_cycle_flag := false
    nextId := 1 }

/-- Witness for C7: with no fills and market price 601 above the
threshold 600.6, the flag is raised. -/
theorem claim_C7_witness :
    (envW_C7.lastPrice = some 601 ∧ stW_C7.base_price = some 600 ∧
     stW_C7.new_cycle_flag = false) ∧
    ((check_price_rise envW_C7 cfgW_C7 stW_C7).new_cycle_flag = true ↔
      (stW_C7.buy_order_filled = false ∧
       ¬ anyBuyPartiallyFilled envW_C7 stW_C7.buy_orders ∧
       (600 : ℚ) * (1 + cfgW_C7.rise_to_sell) < 601)) ∧
    (check_price_rise envW_C7 cfgW_C7 stW_C7).new_cycle_flag = true := by
  have h := claim_C7 envW_C7 cfgW_C7 stW_C7 601 600 rfl rfl rfl
  refine ⟨⟨rfl, rfl, rfl⟩, h.1, ?_⟩
  apply h.1.mpr
  refine ⟨rfl, ?_, by norm_num [cfgW_C7]⟩
  intro hpf
  obtain ⟨o, ho, hso⟩ := hpf
  have ho' : o = ⟨0, Side.buy, 599, 1⟩ := by
    simpa [stW_C7, initState] using ho
  rw [ho'] at hso
  simp [statusOf, check_order_status, envW_C7] at hso

/-! ## C9: failed price fetch during a cycle start -/

theorem check_and_place_base (env : Env) (cfg : TraderConfig)
    (st : GState) :
    (check_and_place_sell_orders env cfg st).base_price = st.base_price := by
  unfold check_and_place_sell_orders
  exact (check_and_place_sell_orders_frame env cfg st.buy_orders st).1

/-- Trivial environment and states used by the C9 counterexample. -/
def envC9 : Env := ⟨none, fun _ => false, fun _ => none, none⟩

def cfgC9 : TraderConfig :=
  { leverage := 1, total_margin := 1200, drop_to_buy := 1/1000,
    rise_to_sell := 1/1000, max_buy_times := 2 }

def stC9 : GState :=
  { initState with
    buy_orders := [⟨0, Side.buy, 599, 1⟩]
    base_price := some 600
    new_cycle_flag := true
    nextId := 1 }

/-- Counterexample to C9 as stated: when the price query fails during a
cycle start, the controller's state is *not* left unchanged — the open
buys have already been cancelled and the base price is overwritten with
the failed (empty) query result. -/
theorem claim_C9_counterexample :
    envC9.lastPrice = none ∧
    (start_trade_cycle envC9 cfgC9 stC9).buy_orders ≠ stC9.buy_orders ∧
    (start_trade_cycle envC9 cfgC9 stC9).base_price ≠ stC9.base_price := by
  refine ⟨rfl, ?_, ?_⟩ <;>
    simp [start_trade_cycle, cancel_all_orders, envC9, stC9, initState]

/-- C9 (amended).  When the last-price query fails during a cycle
start, ladder placement is skipped — nothing is submitted and the
tracked sells are untouched — but the steps preceding the fetch do take
effect: the buy-filled flag is cleared, the tracked buys are cancelled,
and the base price becomes unset; because the base price is then unset,
the very same cycle-start step runs again on the next tick. -/
theorem claim_C9_amended (env : Env) (cfg : TraderConfig) (st : GState)
    (hnp : env.lastPrice = none)
    (htrig : st.new_cycle_flag = true ∨ st.base_price = none) :
    (start_trade_cycle env cfg st).log = st.log ∧
    (start_trade_cycle env cfg st).callIdx = st.callIdx ∧
    (start_trade_cycle env cfg st).sell_orders = st.sell_orders ∧
    (start_trade_cycle env cfg st).base_price = none ∧
    (start_trade_cycle env cfg st).buy_orders = [] ∧
    (start_trade_cycle env cfg st).buy_order_filled = false ∧
    (trade_tick env cfg st).base_price = none := by
  have h1 : start_trade_cycle env cfg st =
      { st with buy_order_filled := false
                buy_orders := []
                base_price := none } := by
    simp [start_trade_cycle, cancel_all_orders, hnp]
  have ht : (trade_tick env cfg st).base_price = none := by
    have h2 : trade_tick env cfg st =
        check_price_rise env cfg
          (check_and_replace_buy_orders env cfg
            (check_and_place_sell_orders env cfg
              { start_trade_cycle env cfg st with new_cycle_flag := false })) := by
      simp [trade_tick, htrig]
    rw [h2, (check_price_rise_frame _ _ _).1, check_and_replace_base,
      check_and_place_base]
    rw [h1]
  rw [h1]
  exact ⟨rfl, rfl, rfl, rfl, rfl, rfl, ht⟩

/-- Witness for C9 (amended), at the concrete counterexample state. -/
theorem claim_C9_witness :
    (envC9.lastPrice = none ∧
     (stC9.new_cycle_flag = true ∨ stC9.base_price = none)) ∧
    ((start_trade_cycle envC9 cfgC9 stC9).log = stC9.log ∧
     (start_trade_cycle envC9 cfgC9 stC9).callIdx = stC9.callIdx ∧
     (start_trade_cycle envC9 cfgC9 stC9).sell_orders = stC9.sell_orders ∧
     (start_trade_cycle envC9 cfgC9 stC9).base_price = none ∧
     (start_trade_cycle envC9 cfgC9 stC9).buy_orders = [] ∧
     (start_trade_cycle envC9 cfgC9 stC9).buy_order_filled = false ∧
     (trade_tick envC9 cfgC9 stC9).base_price = none) :=
  ⟨⟨rfl, Or.inl rfl⟩,
   claim_C9_amended envC9 cfgC9 stC9 rfl (Or.inl rfl)⟩

/-! ## Concrete multi-tick executions (C3 and C8)

Evaluation helpers: constructor disequalities for order statuses and the
two rational comparisons that occur in the runs below. -/

theorem orderStatus_new_ne_filled :
    OrderStatus.NEW ≠ OrderStatus.FILLED := by decide

theorem orderStatus_new_ne_pf :
    OrderStatus.NEW ≠ OrderStatus.PARTIALLY_FILLED := by decide

theorem orderStatus_filled_ne_pf :
    OrderStatus.FILLED ≠ OrderStatus.PARTIALLY_FILLED := by decide

theorem orderStatus_pf_ne_filled :
    OrderStatus.PARTIALLY_FILLED ≠ OrderStatus.FILLED := by decide

theorem rat_rise_cmp : ¬ ((600 : ℚ) * (1 + 1 / 1000) < 600) := by norm_num

theorem rat_thousand_nonneg : ¬ ((1000 : ℚ) < 0) := by norm_num

/-- Symbol metadata whose normalisation maps are constant; chosen so
that stored prices and quantities have a fixed literal shape. -/
def siRun : SymbolInfo := ⟨fun _ => 599, fun _ => 1/2⟩

/-- C3 fixtures: four rungs, rung 2's submission fails on tick 1, all
untouched orders stay NEW, market price stays at the base price. -/
def cfgC3 : TraderConfig :=
  { leverage := 1, total_margin := 800, drop_to_buy := 1/1000,
    rise_to_sell := 1/1000, max_buy_times := 4 }

def envC3a : Env :=
  ⟨some siRun, fun k => k == 0, fun _ => some (OrderStatus.NEW, 0),
   some 600⟩

def envC3b : Env :=
  ⟨some siRun, fun _ => true, fun _ => some (OrderStatus.NEW, 0),
   some 600⟩

def tickC3_1 : GState := trade_tick envC3a cfgC3 initState

def tickC3_2 : GState := trade_tick envC3b cfgC3 tickC3_1

/-- C3.  When rung 2 of 4 fails during a cycle start, rung 1 stays
tracked and rungs 3–4 are never submitted that tick — but, contrary to
the claim (and to the source's own comment `返回并在下一次循环中重试`,
"return and retry on the next loop"), the cycle start is *not* retried
on the next tick: the trade loop has already cleared `new_cycle_flag`
and set `base_price`, so its start trigger is false and no submission
of any kind happens on tick 2. -/
theorem claim_C3 :
    tickC3_1.buy_orders.map Order.id = [0] ∧
    tickC3_1.log.length = 2 ∧
    tickC3_1.new_cycle_flag = false ∧
    tickC3_1.base_price = some 600 ∧
    ¬ (tickC3_1.new_cycle_flag = true ∨ tickC3_1.base_price = none) ∧
    tickC3_2.log = tickC3_1.log ∧
    tickC3_2.buy_orders = tickC3_1.buy_orders ∧
    tickC3_2.callIdx = tickC3_1.callIdx := by
  simp [tickC3_1, tickC3_2, envC3a, envC3b, cfgC3, siRun, initState,
    run_ticks, trade_tick, start_trade_cycle, cancel_all_orders,
    place_buy_orders, place_buy_orders_go, create_order,
    check_and_place_sell_orders, check_and_replace_buy_orders,
    check_price_rise, convert_buy, replace_buy, sell_retry,
    check_order_status, statusOf, filledOf, allSellsFilled,
    anyBuyPartiallyFilled, List.range',
    orderStatus_new_ne_filled, orderStatus_new_ne_pf,
    orderStatus_filled_ne_pf, orderStatus_pf_ne_filled,
    rat_rise_cmp, rat_thousand_nonneg]

/-- C8 fixtures: three rungs.  Tick 1 places the ladder; tick 2 fills
and converts all three buys into sells; tick 3 reports all three sells
FILLED, so the completion branch deletes only the last one and requests
a restart; tick 4 restarts the ladder, converts one immediately filled
buy, and then replenishes the two leftover FILLED sells — giving four
tracked buys. -/
def cfgC8 : TraderConfig :=
  { leverage := 1, total_margin := 900, drop_to_buy := 1/1000,
    rise_to_sell := 1/1000, max_buy_times := 3 }

def envC8a : Env :=
  ⟨some siRun, fun _ => true, fun _ => some (OrderStatus.NEW, 0),
   some 600⟩

def envC8b : Env :=
  ⟨some siRun, fun _ => true,
   fun i => if i ≤ 2 then some (OrderStatus.FILLED, 1/2)
     else some (OrderStatus.NEW, 0), some 600⟩

def envC8c : Env :=
  ⟨some siRun, fun _ => true,
   fun i => if i ≤ 5 then some (OrderStatus.FILLED, 1/2)
     else some (OrderStatus.NEW, 0), some 600⟩

def envC8d : Env :=
  ⟨some siRun, fun _ => true,
   fun i => if i ≤ 6 then some (OrderStatus.FILLED, 1/2)
     else some (OrderStatus.NEW, 0), some 600⟩

def envsC8 : List Env := [envC8a, envC8b, envC8c, envC8d]

/-- C8.  A reachable state of the controller tracks more open buy
orders than `max_buy_times`: after the four ticks described on
`envsC8`, four buys are tracked while `max_buy_times = 3`.  The excess
comes from the completion branch deleting only one of the three filled
sells; the two leftovers are replenished into extra buys on top of the
fresh full ladder. -/
theorem claim_C8 :
    (run_ticks cfgC8 envsC8 initState).buy_orders.length = 4 ∧
    cfgC8.max_buy_times = 3 ∧
    cfgC8.max_buy_times <
      (run_ticks cfgC8 envsC8 initState).buy_orders.length := by
  have h : (run_ticks cfgC8 envsC8 initState).buy_orders.length = 4 := by
    simp [envsC8, envC8a, envC8b, envC8c, envC8d, cfgC8, siRun, initState,
      run_ticks, trade_tick, start_trade_cycle, cancel_all_orders,
      place_buy_orders, place_buy_orders_go, create_order,
      check_and_place_sell_orders, check_and_replace_buy_orders,
      check_price_rise, convert_buy, replace_buy, sell_retry,
      check_order_status, statusOf, filledOf, allSellsFilled,
      anyBuyPartiallyFilled, List.range',
      orderStatus_new_ne_filled, orderStatus_new_ne_pf,
      orderStatus_filled_ne_pf, orderStatus_pf_ne_filled,
      rat_rise_cmp, rat_thousand_nonneg]
  exact ⟨h, rfl, by rw [h]; norm_num [cfgC8]⟩

end GridCeshi
